import Mathlib

/-
Shallow embedding of the `output_format` crate (pandora-prime/rust-util,
src/output_format/src/lib.rs): a formatting utility that renders a value
or a collection of values in one of six output formats.

Modelling conventions:
- Standard output and standard error are modelled as lists of strings,
  one entry per `println!` / `eprintln!` call.
- The `colored` crate's styling combinators (`red`, `bright_green`,
  `bright_white`) are external cosmetic collaborators; they are modelled
  as the identity function, which is the crate's observable behavior when
  output is not an interactive terminal (and the spec declares them safe
  to no-op).
- `serde_yaml::to_string` / `serde_json::to_string` are external fallible
  serializers; they are modelled as caller-supplied functions returning
  `Option String` (`none` = serialization failure).  The source applies
  `.unwrap_or_default()`, modelled as `Option.getD _ ""`.
- Rust trait dispatch is modelled by passing an explicit capability
  record `Printable α` holding the four single-value methods of the
  `OutputCompact` / `OutputFormat` traits.
- `Vec<T>` is a `List α`; `BTreeSet<T>` / `HashSet<T>` are lists giving
  the set's iteration sequence; `HashMap<K, V>` and `BTreeMap<K, Vec<V>>`
  are association lists giving the map's iteration sequence, with the
  key's `Display` rendering passed as `dispK : K → String`.
- Methods whose Rust bodies are `unreachable!()` / `unimplemented!()`
  return a `MethodResult` recording the panic and its message.
-/

/-- The six output formats of the `Formatting` enum. -/
inductive Formatting where
  | Id
  | Compact
  | Tab
  | Csv
  | Yaml
  | Json
deriving DecidableEq, Repr

/-- The `Display` derive on `Formatting`: each variant renders to its
canonical lowercase name. -/
def Formatting.display : Formatting → String
  | .Id => "id"
  | .Compact => "compact"
  | .Tab => "tab"
  | .Csv => "csv"
  | .Yaml => "yaml"
  | .Json => "json"

/-- Rust `str::trim`: strip whitespace characters from both ends,
modelled on the string's character list. -/
def rust_trim (s : String) : String :=
  ⟨(((s.data.dropWhile Char.isWhitespace).reverse).dropWhile
      Char.isWhitespace).reverse⟩

/-- Rust `str::to_lowercase`, modelled characterwise. -/
def rust_to_lowercase (s : String) : String :=
  ⟨s.data.map Char.toLower⟩

/-- Rust `str::to_uppercase`, modelled characterwise. -/
def rust_to_uppercase (s : String) : String :=
  ⟨s.data.map Char.toUpper⟩

/-- Embedding of `impl FromStr for Formatting`: trim and lowercase the input, then
match against the six canonical names; anything else is the error
`"Unknown format name"`. -/
def Formatting.from_str (s : String) : Except String Formatting :=
  let t := rust_to_lowercase (rust_trim s)
  if t = "id" then .ok .Id
  else if t = "compact" then .ok .Compact
  else if t = "tab" then .ok .Tab
  else if t = "csv" then .ok .Csv
  else if t = "yaml" then .ok .Yaml
  else if t = "json" then .ok .Json
  else .error "Unknown format name"

/-- What has been written by a print call: one list entry per `println!`
(standard output) or `eprintln!` (standard error). -/
structure Output where
  stdout : List String
  stderr : List String
deriving DecidableEq, Repr

/-- The `colored` crate's `.red()`, modelled as identity (non-terminal
rendering; cosmetic collaborator). -/
def red (s : String) : String := s

/-- The `colored` crate's `.bright_green()`, modelled as identity. -/
def bright_green (s : String) : String := s

/-- The `colored` crate's `.bright_white()`, modelled as identity. -/
def bright_white (s : String) : String := s

/-- The single-value capability surface of the `OutputCompact` and
`OutputFormat` traits for a value type `α`, together with the external
serializers `serde_yaml::to_string` / `serde_json::to_string`
specialized to `α` (fallible, hence `Option`). -/
structure Printable (α : Type) where
  output_compact : α → String
  output_id_string : α → String
  output_headers : List String
  output_fields : α → List String
  serialize_yaml : α → Option String
  serialize_json : α → Option String

/-- The provided method `OutputFormat::output_print` for a single value:
dispatch on the format and write exactly one line to standard output.
A failed serialization prints an empty line (`unwrap_or_default`). -/
def output_print (P : Printable α) (v : α) (format : Formatting) : Output :=
  match format with
  | .Id => ⟨[P.output_id_string v], []⟩
  | .Compact => ⟨[P.output_compact v], []⟩
  | .Tab => ⟨[String.intercalate "\t" (P.output_fields v)], []⟩
  | .Csv => ⟨[String.intercalate "," (P.output_fields v)], []⟩
  | .Yaml => ⟨[(P.serialize_yaml v).getD ""], []⟩
  | .Json => ⟨[(P.serialize_json v).getD ""], []⟩

/-- The header lines written by the container printers before the body:
one line for `Tab` (bright green) or `Csv`, none otherwise. -/
def headerLines (headers : List String) (format : Formatting) : List String :=
  if format = .Tab then [bright_green (String.intercalate "\t" headers)]
  else if format = .Csv then [String.intercalate "," headers]
  else []

/-- Embedding of `impl OutputFormat for Vec<T>::output_print`: empty prints the
`"No items"` diagnostic to standard error; otherwise the `Tab`/`Csv`
header line then one single-value print per element in order. -/
def vec_output_print (P : Printable α) (l : List α) (format : Formatting) : Output :=
  if l.isEmpty then ⟨[], [red "No items"]⟩
  else
    ⟨headerLines P.output_headers format ++
      (l.map (fun t => (output_print P t format).stdout)).flatten, []⟩

/-- Embedding of `impl OutputFormat for BTreeSet<T>::output_print`: identical body to
the `Vec` implementation; the list argument is the set's sorted
iteration sequence. -/
def btreeset_output_print (P : Printable α) (l : List α) (format : Formatting) : Output :=
  if l.isEmpty then ⟨[], [red "No items"]⟩
  else
    ⟨headerLines P.output_headers format ++
      (l.map (fun t => (output_print P t format).stdout)).flatten, []⟩

/-- Embedding of `impl OutputFormat for HashSet<T>::output_print`: identical body to
the `Vec` implementation; the list argument is the set's (unspecified)
iteration sequence. -/
def hashset_output_print (P : Printable α) (l : List α) (format : Formatting) : Output :=
  if l.isEmpty then ⟨[], [red "No items"]⟩
  else
    ⟨headerLines P.output_headers format ++
      (l.map (fun t => (output_print P t format).stdout)).flatten, []⟩

/-- Embedding of `impl OutputFormat for HashMap<K, V>::output_headers`: a static
`"ID"` column followed by the value type's headers. -/
def hashmap_output_headers (P : Printable α) : List String :=
  "ID" :: P.output_headers

/-- The per-entry line printed by `HashMap<K, V>::output_print` under the
four scalar formats.  The final catch-all mirrors the source's inner
`_ => unreachable!()` arm, which the outer dispatch (sending `Yaml` and
`Json` to aggregate serialization) never reaches. -/
def hashmap_entry_line (P : Printable α) (dispK : K → String)
    (format : Formatting) (id : K) (rec : α) : String :=
  match format with
  | .Id => dispK id
  | .Compact => P.output_compact rec ++ "#" ++ dispK id
  | .Tab => dispK id ++ "\t" ++ String.intercalate "\t" (P.output_fields rec)
  | .Csv => dispK id ++ "," ++ String.intercalate "," (P.output_fields rec)
  | _ => "internal error: entered unreachable code"

/-- Embedding of `impl OutputFormat for HashMap<K, V>::output_print`: empty prints the
`"No items"` diagnostic; otherwise the `Tab`/`Csv` header line (headers
prefixed with `"ID"`), then for `Yaml`/`Json` a single write of the whole
map's serialization (`unwrap_or_default` on failure), else one line per
entry in iteration order.  `serYaml`/`serJson` model
`serde_yaml::to_string` / `serde_json::to_string` on the map itself. -/
def hashmap_output_print (P : Printable α) (dispK : K → String)
    (serYaml serJson : List (K × α) → Option String)
    (m : List (K × α)) (format : Formatting) : Output :=
  if m.isEmpty then ⟨[], [red "No items"]⟩
  else
    let hdr := headerLines (hashmap_output_headers P) format
    match format with
    | .Yaml => ⟨hdr ++ [(serYaml m).getD ""], []⟩
    | .Json => ⟨hdr ++ [(serJson m).getD ""], []⟩
    | _ => ⟨hdr ++ m.map (fun e => hashmap_entry_line P dispK format e.1 e.2), []⟩

/-- Embedding of `impl OutputFormat for BTreeMap<K, Vec<V>>::output_headers`: a static
`"ID"` column followed by the value type's headers. -/
def btreemap_output_headers (P : Printable α) : List String :=
  "ID" :: P.output_headers

/-- The per-record line printed by `BTreeMap<K, Vec<V>>::output_print`
under the four scalar formats; the key has already been rendered and
passed through `bright_white`.  The final catch-all mirrors the source's
inner `_ => unreachable!()` arm, never reached under the outer
dispatch. -/
def btreemap_entry_line (P : Printable α) (format : Formatting)
    (idStr : String) (rec : α) : String :=
  match format with
  | .Id => idStr
  | .Compact => P.output_compact rec ++ "#" ++ idStr
  | .Tab => idStr ++ "\t" ++ String.intercalate "\t" (P.output_fields rec)
  | .Csv => idStr ++ "," ++ String.intercalate "," (P.output_fields rec)
  | _ => "internal error: entered unreachable code"

/-- Embedding of `impl OutputFormat for BTreeMap<K, Vec<V>>::output_print`: the map is
empty when every group is empty; otherwise the `Tab`/`Csv` header line,
then for `Yaml`/`Json` a single write of the whole map's serialization,
else per entry, one line per record of the entry's group (the key,
rendered through `bright_white`, repeated for each record). -/
def btreemap_output_print (P : Printable α) (dispK : K → String)
    (serYaml serJson : List (K × List α) → Option String)
    (m : List (K × List α)) (format : Formatting) : Output :=
  if m.all (fun e => e.2.isEmpty) then ⟨[], [red "No items"]⟩
  else
    let hdr := headerLines (btreemap_output_headers P) format
    match format with
    | .Yaml => ⟨hdr ++ [(serYaml m).getD ""], []⟩
    | .Json => ⟨hdr ++ [(serJson m).getD ""], []⟩
    | _ => ⟨hdr ++ (m.map (fun e =>
        e.2.map (fun rec =>
          btreemap_entry_line P format (bright_white (dispK e.1)) rec))).flatten, []⟩

/-- Result of calling a trait method whose body may panic: either the
panic (with its message) or a normal return. -/
inductive MethodResult (α : Type) where
  | diverges (msg : String) : MethodResult α
  | returns (a : α) : MethodResult α
deriving DecidableEq, Repr

/-- The message of Rust's `unreachable!()` panic. -/
def unreachableMsg : String := "internal error: entered unreachable code"

/-- The message of Rust's `unimplemented!()` panic. -/
def unimplementedMsg : String := "not implemented"

/-- Embedding of `impl OutputCompact for Vec<T>::output_compact`, whose body is
`unreachable!()`. -/
def vec_output_compact (_l : List α) : MethodResult String :=
  .diverges unreachableMsg

/-- Embedding of `impl OutputFormat for Vec<T>::output_id_string` (`unreachable!()`). -/
def vec_output_id_string (_l : List α) : MethodResult String :=
  .diverges unreachableMsg

/-- Embedding of `impl OutputFormat for Vec<T>::output_headers` (`unreachable!()`);
static method, so the argument is the element capability record. -/
def vec_output_headers (_P : Printable α) : MethodResult (List String) :=
  .diverges unreachableMsg

/-- Embedding of `impl OutputFormat for Vec<T>::output_fields` (`unreachable!()`). -/
def vec_output_fields (_l : List α) : MethodResult (List String) :=
  .diverges unreachableMsg

/-- Embedding of `impl OutputCompact for BTreeSet<T>::output_compact`
(`unreachable!()`). -/
def btreeset_output_compact (_l : List α) : MethodResult String :=
  .diverges unreachableMsg

/-- Embedding of `impl OutputFormat for BTreeSet<T>::output_id_string`
(`unreachable!()`). -/
def btreeset_output_id_string (_l : List α) : MethodResult String :=
  .diverges unreachableMsg

/-- Embedding of `impl OutputFormat for BTreeSet<T>::output_headers`
(`unreachable!()`). -/
def btreeset_output_headers (_P : Printable α) : MethodResult (List String) :=
  .diverges unreachableMsg

/-- Embedding of `impl OutputFormat for BTreeSet<T>::output_fields`
(`unreachable!()`). -/
def btreeset_output_fields (_l : List α) : MethodResult (List String) :=
  .diverges unreachableMsg

/-- Embedding of `impl OutputCompact for HashSet<T>::output_compact`
(`unreachable!()`). -/
def hashset_output_compact (_l : List α) : MethodResult String :=
  .diverges unreachableMsg

/-- Embedding of `impl OutputFormat for HashSet<T>::output_id_string`
(`unreachable!()`). -/
def hashset_output_id_string (_l : List α) : MethodResult String :=
  .diverges unreachableMsg

/-- Embedding of `impl OutputFormat for HashSet<T>::output_headers`
(`unreachable!()`). -/
def hashset_output_headers (_P : Printable α) : MethodResult (List String) :=
  .diverges unreachableMsg

/-- Embedding of `impl OutputFormat for HashSet<T>::output_fields`
(`unreachable!()`). -/
def hashset_output_fields (_l : List α) : MethodResult (List String) :=
  .diverges unreachableMsg

/-- Embedding of `impl OutputCompact for HashMap<K, V>::output_compact`, whose body is
`unimplemented!()`. -/
def hashmap_output_compact (_m : List (K × α)) : MethodResult String :=
  .diverges unimplementedMsg

/-- Embedding of `impl OutputFormat for HashMap<K, V>::output_id_string`
(`unreachable!()`). -/
def hashmap_output_id_string (_m : List (K × α)) : MethodResult String :=
  .diverges unreachableMsg

/-- Embedding of `impl OutputFormat for HashMap<K, V>::output_fields`
(`unreachable!()`). -/
def hashmap_output_fields (_m : List (K × α)) : MethodResult (List String) :=
  .diverges unreachableMsg

/-- Embedding of `impl OutputCompact for BTreeMap<K, Vec<V>>::output_compact`
(`unimplemented!()`). -/
def btreemap_output_compact (_m : List (K × List α)) : MethodResult String :=
  .diverges unimplementedMsg

/-- Embedding of `impl OutputFormat for BTreeMap<K, Vec<V>>::output_id_string`
(`unreachable!()`). -/
def btreemap_output_id_string (_m : List (K × List α)) : MethodResult String :=
  .diverges unreachableMsg

/-- Embedding of `impl OutputFormat for BTreeMap<K, Vec<V>>::output_fields`
(`unreachable!()`). -/
def btreemap_output_fields (_m : List (K × List α)) : MethodResult (List String) :=
  .diverges unreachableMsg

/-- The six canonical lowercase format names, in declaration order. -/
def canonicalNames : List String :=
  ["id", "compact", "tab", "csv", "yaml", "json"]

/-- A concrete record type used to instantiate the theorems below on
concrete inputs. -/
structure SampleRec where
  ident : String
  fields : List String
deriving DecidableEq, Repr

/-- A concrete `Printable` capability for `SampleRec`: headers
`["A", "B"]`, succeeding serializers. -/
def sampleP : Printable SampleRec where
  output_compact r := "c-" ++ r.ident
  output_id_string r := r.ident
  output_headers := ["A", "B"]
  output_fields r := r.fields
  serialize_yaml r := some ("y-" ++ r.ident)
  serialize_json r := some ("j-" ++ r.ident)

/-- A copy of `sampleP` with serializers that always fail. -/
def failP : Printable SampleRec :=
  { sampleP with serialize_yaml := fun _ => none, serialize_json := fun _ => none }

/-- First concrete record. -/
def r1 : SampleRec := ⟨"x", ["1", "2"]⟩

/-- Second concrete record. -/
def r2 : SampleRec := ⟨"y", ["3", "4"]⟩

/-- Flattening a map of singleton lists is a plain map. -/
theorem flatten_map_singleton (g : α → β) (l : List α) :
    (l.map (fun t => [g t])).flatten = l.map g := by
  induction l with
  | nil => rfl
  | cons a l ih => simp [ih]

/-- C7: for each of the six canonical format names, parsing the name
unchanged, the name uppercased, and the name surrounded by whitespace
all succeed and yield the same `Formatting` variant. -/
theorem parse_case_and_whitespace_insensitive (f : Formatting) :
    Formatting.from_str f.display = .ok f ∧
    Formatting.from_str (rust_to_uppercase f.display) = .ok f ∧
    Formatting.from_str (" " ++ f.display ++ " ") = .ok f := by
  cases f <;> exact ⟨rfl, rfl, rfl⟩

/-- C8: parsing fails exactly when the trimmed, lowercased input is not
one of the six canonical names, and every such failure (including the
empty string) is the textual error "Unknown format name". -/
theorem parse_unknown_format (s : String) :
    (rust_to_lowercase (rust_trim s) ∉ canonicalNames →
       Formatting.from_str s = .error "Unknown format name") ∧
    (rust_to_lowercase (rust_trim s) ∈ canonicalNames →
       ∃ f, Formatting.from_str s = .ok f) := by
  constructor
  · intro h
    simp only [canonicalNames, List.mem_cons, List.not_mem_nil, or_false,
      not_or] at h
    obtain ⟨h1, h2, h3, h4, h5, h6⟩ := h
    simp [Formatting.from_str, h1, h2, h3, h4, h5, h6]
  · intro h
    simp only [canonicalNames, List.mem_cons, List.not_mem_nil, or_false] at h
    rcases h with h | h | h | h | h | h
    · exact ⟨.Id, by simp [Formatting.from_str, h]⟩
    · exact ⟨.Compact, by simp [Formatting.from_str, h]⟩
    · exact ⟨.Tab, by simp [Formatting.from_str, h]⟩
    · exact ⟨.Csv, by simp [Formatting.from_str, h]⟩
    · exact ⟨.Yaml, by simp [Formatting.from_str, h]⟩
    · exact ⟨.Json, by simp [Formatting.from_str, h]⟩

/-- Witness for C8 at the empty string. -/
theorem parse_unknown_format_witness :
    rust_to_lowercase (rust_trim "") ∉ canonicalNames ∧
    Formatting.from_str "" = .error "Unknown format name" :=
  ⟨by decide, (parse_unknown_format "").1 (by decide)⟩

/-- C9: every variant displays as its canonical lowercase name, and
parsing the displayed name returns the variant (display then parse is
the identity). -/
theorem display_parse_roundtrip (f : Formatting) :
    f.display ∈ canonicalNames ∧ Formatting.from_str f.display = .ok f := by
  cases f <;> exact ⟨by decide, rfl⟩

/-- C1: printing a non-empty sequence of N records in Tab (resp. Csv)
format writes exactly N+1 stdout lines: one header line of the static
header names joined by the delimiter, then one line per record in order
of the record's fields joined by the delimiter, with no quoting or
escaping of embedded delimiter characters. -/
theorem vec_tab_csv_prints_header_and_rows (P : Printable α) (l : List α)
    (h : l ≠ []) :
    (vec_output_print P l .Tab).stdout =
        String.intercalate "\t" P.output_headers ::
          l.map (fun t => String.intercalate "\t" (P.output_fields t)) ∧
    (vec_output_print P l .Csv).stdout =
        String.intercalate "," P.output_headers ::
          l.map (fun t => String.intercalate "," (P.output_fields t)) ∧
    (vec_output_print P l .Tab).stdout.length = l.length + 1 ∧
    (vec_output_print P l .Csv).stdout.length = l.length + 1 := by
  have hne : l.isEmpty = false := by simpa using h
  have htab : (vec_output_print P l .Tab).stdout =
      String.intercalate "\t" P.output_headers ::
        l.map (fun t => String.intercalate "\t" (P.output_fields t)) := by
    simp [vec_output_print, hne, headerLines, bright_green, output_print,
      flatten_map_singleton]
  have hcsv : (vec_output_print P l .Csv).stdout =
      String.intercalate "," P.output_headers ::
        l.map (fun t => String.intercalate "," (P.output_fields t)) := by
    simp [vec_output_print, hne, headerLines, bright_green, output_print,
      flatten_map_singleton]
  exact ⟨htab, hcsv, by simp [htab], by simp [hcsv]⟩

/-- Witness for C1 on a two-record list matching the spec's concrete
Csv scenario. -/
theorem vec_tab_csv_prints_header_and_rows_witness :
    ([r1, r2] ≠ ([] : List SampleRec)) ∧
    ((vec_output_print sampleP [r1, r2] .Tab).stdout =
        String.intercalate "\t" sampleP.output_headers ::
          [r1, r2].map
            (fun t => String.intercalate "\t" (sampleP.output_fields t)) ∧
     (vec_output_print sampleP [r1, r2] .Csv).stdout =
        String.intercalate "," sampleP.output_headers ::
          [r1, r2].map
            (fun t => String.intercalate "," (sampleP.output_fields t)) ∧
     (vec_output_print sampleP [r1, r2] .Tab).stdout.length =
        [r1, r2].length + 1 ∧
     (vec_output_print sampleP [r1, r2] .Csv).stdout.length =
        [r1, r2].length + 1) :=
  ⟨by decide,
   vec_tab_csv_prints_header_and_rows sampleP [r1, r2] (by decide)⟩

/-- C2: printing an empty sequence, empty set, empty map, or a map of
groups in which every group is empty writes nothing to stdout and
exactly the one diagnostic line "No items" to stderr, in every
format. -/
theorem empty_collections_no_items {α K : Type} (format : Formatting)
    (P : Printable α) (dispK : K → String)
    (serY serJ : List (K × α) → Option String)
    (serYg serJg : List (K × List α) → Option String)
    (g : List (K × List α)) (hg : ∀ e ∈ g, e.2 = []) :
    vec_output_print P [] format = ⟨[], ["No items"]⟩ ∧
    btreeset_output_print P [] format = ⟨[], ["No items"]⟩ ∧
    hashset_output_print P [] format = ⟨[], ["No items"]⟩ ∧
    hashmap_output_print P dispK serY serJ [] format = ⟨[], ["No items"]⟩ ∧
    btreemap_output_print P dispK serYg serJg g format =
      ⟨[], ["No items"]⟩ := by
  have hga : g.all (fun e => e.2.isEmpty) = true := by
    rw [List.all_eq_true]
    intro e he
    simp [hg e he]
  refine ⟨?_, ?_, ?_, ?_, ?_⟩ <;>
    simp [vec_output_print, btreeset_output_print, hashset_output_print,
      hashmap_output_print, btreemap_output_print, red, hga]

/-- Witness for C2 with a one-key map of groups whose only group is
empty. -/
theorem empty_collections_no_items_witness :
    (∀ e ∈ [("k", ([] : List SampleRec))], e.2 = []) ∧
    (vec_output_print sampleP [] .Tab = ⟨[], ["No items"]⟩ ∧
     btreeset_output_print sampleP [] .Tab = ⟨[], ["No items"]⟩ ∧
     hashset_output_print sampleP [] .Tab = ⟨[], ["No items"]⟩ ∧
     hashmap_output_print sampleP (fun k : String => k)
        (fun _ => none) (fun _ => none) [] .Tab = ⟨[], ["No items"]⟩ ∧
     btreemap_output_print sampleP (fun k : String => k)
        (fun _ => none) (fun _ => none) [("k", [])] .Tab =
       ⟨[], ["No items"]⟩) :=
  ⟨by decide,
   empty_collections_no_items .Tab sampleP (fun k : String => k)
     (fun _ => none) (fun _ => none) (fun _ => none) (fun _ => none)
     [("k", [])] (by decide)⟩

/-- C3: when the serializer fails for a value, Yaml/Json single-value
printing still completes normally and writes one empty output line; the
failure is absorbed, not propagated. -/
theorem serializer_failure_prints_empty_line (P : Printable α) (v : α)
    (hY : P.serialize_yaml v = none) (hJ : P.serialize_json v = none) :
    output_print P v .Yaml = ⟨[""], []⟩ ∧
    output_print P v .Json = ⟨[""], []⟩ := by
  simp [output_print, hY, hJ]

/-- Witness for C3 with the always-failing serializers. -/
theorem serializer_failure_prints_empty_line_witness :
    (failP.serialize_yaml r1 = none ∧ failP.serialize_json r1 = none) ∧
    (output_print failP r1 .Yaml = ⟨[""], []⟩ ∧
     output_print failP r1 .Json = ⟨[""], []⟩) :=
  ⟨⟨rfl, rfl⟩,
   serializer_failure_prints_empty_line failP r1 rfl rfl⟩

/-- C4: a non-empty identifier-keyed map (and a map of groups with some
non-empty group) under Yaml/Json serializes the whole map as one
aggregate document emitted as a single write, with no header line and
no per-entry lines. -/
theorem map_yaml_json_aggregate {α K : Type} (P : Printable α)
    (dispK : K → String)
    (serY serJ : List (K × α) → Option String)
    (serYg serJg : List (K × List α) → Option String)
    (m : List (K × α)) (g : List (K × List α))
    (hm : m ≠ []) (hg : ¬ ∀ e ∈ g, e.2 = []) :
    hashmap_output_print P dispK serY serJ m .Yaml =
      ⟨[(serY m).getD ""], []⟩ ∧
    hashmap_output_print P dispK serY serJ m .Json =
      ⟨[(serJ m).getD ""], []⟩ ∧
    btreemap_output_print P dispK serYg serJg g .Yaml =
      ⟨[(serYg g).getD ""], []⟩ ∧
    btreemap_output_print P dispK serYg serJg g .Json =
      ⟨[(serJg g).getD ""], []⟩ := by
  have hne : m.isEmpty = false := by simpa using hm
  have hga : g.all (fun e => e.2.isEmpty) = false := by
    by_contra hcon
    have hall : g.all (fun e => e.2.isEmpty) = true := by
      cases hb : g.all (fun e => e.2.isEmpty) with
      | false => exact absurd hb hcon
      | true => rfl
    exact hg fun e he => by simpa using List.all_eq_true.mp hall e he
  refine ⟨?_, ?_, ?_, ?_⟩ <;>
    simp [hashmap_output_print, btreemap_output_print, hne, hga,
      headerLines]

/-- Witness for C4 on one-entry maps. -/
theorem map_yaml_json_aggregate_witness :
    (([("a", r1)] : List (String × SampleRec)) ≠ [] ∧
     ¬ ∀ e ∈ [("k", [r1])], e.2 = ([] : List SampleRec)) ∧
    (hashmap_output_print sampleP (fun k : String => k)
        (fun _ => some "Y") (fun _ => some "J") [("a", r1)] .Yaml =
      ⟨[(some "Y").getD ""], []⟩ ∧
     hashmap_output_print sampleP (fun k : String => k)
        (fun _ => some "Y") (fun _ => some "J") [("a", r1)] .Json =
      ⟨[(some "J").getD ""], []⟩ ∧
     btreemap_output_print sampleP (fun k : String => k)
        (fun _ => some "GY") (fun _ => some "GJ") [("k", [r1])] .Yaml =
      ⟨[(some "GY").getD ""], []⟩ ∧
     btreemap_output_print sampleP (fun k : String => k)
        (fun _ => some "GY") (fun _ => some "GJ") [("k", [r1])] .Json =
      ⟨[(some "GJ").getD ""], []⟩) :=
  ⟨⟨by decide, by decide⟩,
   map_yaml_json_aggregate sampleP (fun k : String => k)
     (fun _ => some "Y") (fun _ => some "J")
     (fun _ => some "GY") (fun _ => some "GJ")
     [("a", r1)] [("k", [r1])] (by decide) (by decide)⟩

/-- C5: a non-empty bare sequence or set under Yaml/Json emits no header
line and invokes the single-value printer once per element in iteration
order, producing exactly one serialized document per element. -/
theorem seq_set_yaml_json_per_element (P : Printable α) (l : List α)
    (h : l ≠ []) :
    ((vec_output_print P l .Yaml).stdout =
        (l.map (fun t => (output_print P t .Yaml).stdout)).flatten ∧
     (vec_output_print P l .Yaml).stdout.length = l.length ∧
     (vec_output_print P l .Json).stdout =
        (l.map (fun t => (output_print P t .Json).stdout)).flatten ∧
     (vec_output_print P l .Json).stdout.length = l.length) ∧
    ((btreeset_output_print P l .Yaml).stdout =
        (l.map (fun t => (output_print P t .Yaml).stdout)).flatten ∧
     (btreeset_output_print P l .Yaml).stdout.length = l.length ∧
     (btreeset_output_print P l .Json).stdout =
        (l.map (fun t => (output_print P t .Json).stdout)).flatten ∧
     (btreeset_output_print P l .Json).stdout.length = l.length) ∧
    ((hashset_output_print P l .Yaml).stdout =
        (l.map (fun t => (output_print P t .Yaml).stdout)).flatten ∧
     (hashset_output_print P l .Yaml).stdout.length = l.length ∧
     (hashset_output_print P l .Json).stdout =
        (l.map (fun t => (output_print P t .Json).stdout)).flatten ∧
     (hashset_output_print P l .Json).stdout.length = l.length) := by
  have hne : l.isEmpty = false := by simpa using h
  refine ⟨⟨?_, ?_, ?_, ?_⟩, ⟨?_, ?_, ?_, ?_⟩, ⟨?_, ?_, ?_, ?_⟩⟩ <;>
    simp [vec_output_print, btreeset_output_print, hashset_output_print,
      hne, headerLines, output_print, flatten_map_singleton]

/-- Witness for C5 on a two-element list. -/
theorem seq_set_yaml_json_per_element_witness :
    ([r1, r2] ≠ ([] : List SampleRec)) ∧
    (vec_output_print sampleP [r1, r2] .Yaml).stdout =
      ([r1, r2].map
        (fun t => (output_print sampleP t .Yaml).stdout)).flatten ∧
    (vec_output_print sampleP [r1, r2] .Yaml).stdout.length =
      [r1, r2].length :=
  ⟨by decide,
   (seq_set_yaml_json_per_element sampleP [r1, r2] (by decide)).1.1,
   (seq_set_yaml_json_per_element sampleP [r1, r2] (by decide)).1.2.1⟩

/-- C6: a non-empty identifier-keyed map under Id/Compact/Tab/Csv
iterates entries in the map's iteration order and per entry prints the
key alone (Id), "<record-compact>#<key>" (Compact), or the key, the
delimiter, and the record's delimiter-joined fields (Tab/Csv, after the
ID-prefixed header line); a map of groups applies the same per-entry
behavior to every record of each key's group, repeating the key once
per record. -/
theorem map_scalar_format_lines {α K : Type} (P : Printable α)
    (dispK : K → String)
    (serY serJ : List (K × α) → Option String)
    (serYg serJg : List (K × List α) → Option String)
    (m : List (K × α)) (g : List (K × List α))
    (hm : m ≠ []) (hg : ¬ ∀ e ∈ g, e.2 = []) :
    ((hashmap_output_print P dispK serY serJ m .Id).stdout =
        m.map (fun e => dispK e.1) ∧
     (hashmap_output_print P dispK serY serJ m .Compact).stdout =
        m.map (fun e => P.output_compact e.2 ++ "#" ++ dispK e.1) ∧
     (hashmap_output_print P dispK serY serJ m .Tab).stdout =
        String.intercalate "\t" ("ID" :: P.output_headers) ::
          m.map (fun e => dispK e.1 ++ "\t" ++
            String.intercalate "\t" (P.output_fields e.2)) ∧
     (hashmap_output_print P dispK serY serJ m .Csv).stdout =
        String.intercalate "," ("ID" :: P.output_headers) ::
          m.map (fun e => dispK e.1 ++ "," ++
            String.intercalate "," (P.output_fields e.2))) ∧
    ((btreemap_output_print P dispK serYg serJg g .Id).stdout =
        (g.map (fun e => e.2.map (fun _ => dispK e.1))).flatten ∧
     (btreemap_output_print P dispK serYg serJg g .Compact).stdout =
        (g.map (fun e => e.2.map
          (fun rec => P.output_compact rec ++ "#" ++ dispK e.1))).flatten ∧
     (btreemap_output_print P dispK serYg serJg g .Tab).stdout =
        String.intercalate "\t" ("ID" :: P.output_headers) ::
          (g.map (fun e => e.2.map (fun rec => dispK e.1 ++ "\t" ++
            String.intercalate "\t" (P.output_fields rec)))).flatten ∧
     (btreemap_output_print P dispK serYg serJg g .Csv).stdout =
        String.intercalate "," ("ID" :: P.output_headers) ::
          (g.map (fun e => e.2.map (fun rec => dispK e.1 ++ "," ++
            String.intercalate "," (P.output_fields rec)))).flatten) := by
  have hne : m.isEmpty = false := by simpa using hm
  have hga : g.all (fun e => e.2.isEmpty) = false := by
    by_contra hcon
    have hall : g.all (fun e => e.2.isEmpty) = true := by
      cases hb : g.all (fun e => e.2.isEmpty) with
      | false => exact absurd hb hcon
      | true => rfl
    exact hg fun e he => by simpa using List.all_eq_true.mp hall e he
  refine ⟨⟨?_, ?_, ?_, ?_⟩, ⟨?_, ?_, ?_, ?_⟩⟩ <;>
    simp [hashmap_output_print, btreemap_output_print, hne, hga,
      headerLines, hashmap_output_headers, btreemap_output_headers,
      hashmap_entry_line, btreemap_entry_line, bright_green, bright_white]

/-- Witness for C6 on a one-entry map and a one-key, two-record group
map. -/
theorem map_scalar_format_lines_witness :
    (([("a", r1)] : List (String × SampleRec)) ≠ [] ∧
     ¬ ∀ e ∈ [("k", [r1, r2])], e.2 = ([] : List SampleRec)) ∧
    ((hashmap_output_print sampleP (fun k : String => k)
        (fun _ => none) (fun _ => none) [("a", r1)] .Compact).stdout =
      [("a", r1)].map
        (fun e => sampleP.output_compact e.2 ++ "#" ++ e.1) ∧
     (btreemap_output_print sampleP (fun k : String => k)
        (fun _ => none) (fun _ => none) [("k", [r1, r2])] .Tab).stdout =
      String.intercalate "\t" ("ID" :: sampleP.output_headers) ::
        ([("k", [r1, r2])].map (fun e => e.2.map
          (fun rec => e.1 ++ "\t" ++
            String.intercalate "\t" (sampleP.output_fields rec)))).flatten) :=
  ⟨⟨by decide, by decide⟩,
   (map_scalar_format_lines sampleP (fun k : String => k)
      (fun _ => none) (fun _ => none) (fun _ => none) (fun _ => none)
      [("a", r1)] [("k", [r1, r2])] (by decide) (by decide)).1.2.1,
   (map_scalar_format_lines sampleP (fun k : String => k)
      (fun _ => none) (fun _ => none) (fun _ => none) (fun _ => none)
      [("a", r1)] [("k", [r1, r2])] (by decide) (by decide)).2.2.2.1⟩

/-- C10: every single-value capability method stubbed on a container
(compact, id-string, headers, and fields on sequences and sets;
compact, id-string, and fields on the two map shapes) panics
unconditionally on every input, with the `unreachable!` or
`unimplemented!` message, while the maps' `output_headers` returns
normally. -/
theorem container_stub_methods_panic {α K : Type} (P : Printable α)
    (l sb sh : List α) (m : List (K × α)) (g : List (K × List α)) :
    vec_output_compact l = .diverges unreachableMsg ∧
    vec_output_id_string l = .diverges unreachableMsg ∧
    vec_output_headers P = .diverges unreachableMsg ∧
    vec_output_fields l = .diverges unreachableMsg ∧
    btreeset_output_compact sb = .diverges unreachableMsg ∧
    btreeset_output_id_string sb = .diverges unreachableMsg ∧
    btreeset_output_headers P = .diverges unreachableMsg ∧
    btreeset_output_fields sb = .diverges unreachableMsg ∧
    hashset_output_compact sh = .diverges unreachableMsg ∧
    hashset_output_id_string sh = .diverges unreachableMsg ∧
    hashset_output_headers P = .diverges unreachableMsg ∧
    hashset_output_fields sh = .diverges unreachableMsg ∧
    hashmap_output_compact m = .diverges unimplementedMsg ∧
    hashmap_output_id_string m = .diverges unreachableMsg ∧
    hashmap_output_fields m = .diverges unreachableMsg ∧
    btreemap_output_compact g = .diverges unimplementedMsg ∧
    btreemap_output_id_string g = .diverges unreachableMsg ∧
    btreemap_output_fields g = .diverges unreachableMsg ∧
    hashmap_output_headers P = "ID" :: P.output_headers ∧
    btreemap_output_headers P = "ID" :: P.output_headers :=
  ⟨rfl, rfl, rfl, rfl, rfl, rfl, rfl, rfl, rfl, rfl,
   rfl, rfl, rfl, rfl, rfl, rfl, rfl, rfl, rfl, rfl⟩
